import Mathlib

/-!
Verification development for the RFQ spec-compliance engine.

The Python sources (`utils/comparer.py`, `utils/parser.py`, `utils/report.py`)
are shallowly embedded below: pandas DataFrames with columns
(Parameter, Value) become association lists `List (String × Value)`,
Python floats become `ℚ`, functions that may raise become `Option`-valued
functions, and the in-place mutation in `compare_specs` is modelled by
explicit state passing over a table store.
-/

/-- A cell value of a document table: Python values that reach the engine are
either numbers (modelled as `ℚ`) or strings. -/
inductive Value where
  | num (q : ℚ)
  | str (s : String)
deriving DecidableEq

/-- Model of Python `str.strip()`: drop leading and trailing whitespace. -/
def pyStrip (s : String) : String :=
  String.mk (((s.toList.dropWhile Char.isWhitespace).reverse.dropWhile Char.isWhitespace).reverse)

/-- Model of Python `str.lower()` (ASCII case folding suffices for every
string in the configuration tables). -/
def pyLower (s : String) : String :=
  String.mk (s.toList.map Char.toLower)

/-- Decimal rendering of a rational whose denominator divides a power of ten,
used to model Python `str()` on floats such as `3.0 ↦ "3.0"` and
`0.5 ↦ "0.5"`. Non-terminating denominators fall back to `num/den`. -/
def ratRepr (q : ℚ) : String :=
  if q.den = 1 then toString q.num ++ ".0"
  else
    match (List.range 7).find? (fun k => k != 0 && (10 : ℕ) ^ k % q.den == 0) with
    | some k =>
      let n : ℕ := q.num.natAbs * ((10 : ℕ) ^ k / q.den)
      let sgn := if q.num < 0 then "-" else ""
      let fracDigits := toString (n % 10 ^ k)
      sgn ++ toString (n / 10 ^ k) ++ "." ++
        String.mk (List.replicate (k - fracDigits.length) '0') ++ fracDigits
    | none => toString q.num ++ "/" ++ toString q.den

/-- Model of Python `str()` applied to a cell value; the string case is exact,
the numeric case renders terminating decimals the way `str(float)` does. -/
def pyStr : Value → String
  | .str s => s
  | .num q => ratRepr q

/-- Numeric value of a digit list (most significant first). -/
def digitsVal (l : List Char) : ℕ :=
  l.foldl (fun a c => a * 10 + (c.toNat - 48)) 0

/-- Model of Python `float(s)` on a string: optional sign, integer digits,
optional fractional part (covers every literal form the documents use;
exponent notation is outside the modelled subset and yields `none`). -/
def parseFloat? (s : String) : Option ℚ :=
  let cs := (pyStrip s).toList
  let sgncs : ℚ × List Char :=
    match cs with
    | '-' :: t => (-1, t)
    | '+' :: t => (1, t)
    | _ => (1, cs)
  let sgn := sgncs.1
  let body := sgncs.2
  let ip := body.takeWhile Char.isDigit
  let rest := body.drop ip.length
  match rest with
  | [] => if ip = [] then none else some (sgn * (digitsVal ip : ℚ))
  | '.' :: fp =>
    if fp.all Char.isDigit ∧ (ip ≠ [] ∨ fp ≠ []) then
      some (sgn * ((digitsVal ip : ℚ) + (digitsVal fp : ℚ) / 10 ^ fp.length))
    else none
  | _ => none

/-- Model of Python `float(x)` on a cell value (raising = `none`). -/
def pyFloat? : Value → Option ℚ
  | .num q => some q
  | .str s => parseFloat? s

/-- `float(x)` where `x` may be `None` (then `float` raises, i.e. `none`). -/
def pyFloatOpt (v : Option Value) : Option ℚ :=
  v.bind pyFloat?

/-- `needle.isPrefixOf`-based scan for Python's substring test `needle in hay`. -/
def subAux (needle : List Char) : List Char → Bool
  | [] => needle.isEmpty
  | c :: t => needle.isPrefixOf (c :: t) || subAux needle t

/-- Model of Python `needle in hay` on strings. -/
def containsSub (hay needle : String) : Bool :=
  subAux needle.toList hay.toList

/-- Model of Python `param.startswith("NPSH")`. -/
def startsNPSH (p : String) : Bool :=
  "NPSH".toList.isPrefixOf p.toList

/-- `comparer.PARAM_META` entry: category, tolerance, tolerance kind
(`"rel"`, `"abs"`, `"enum"`) and criticality, exactly as in the source dict. -/
structure ParamMeta where
  category : String
  tol : ℚ
  tol_type : String
  criticality : String
deriving DecidableEq

/-- `comparer.PARAM_META`, in the source's insertion order. -/
def PARAM_META : List (String × ParamMeta) := [
  ("Flow (m³/h)",             ⟨"Hydraulic", 0.05, "rel", "Critical"⟩),
  ("Head (m)",                ⟨"Hydraulic", 0.03, "rel", "Critical"⟩),
  ("Efficiency (%)",          ⟨"Hydraulic", 0.02, "rel", "Major"⟩),
  ("NPSH Available (m)",      ⟨"Hydraulic", 0.0, "abs", "Critical"⟩),
  ("NPSH Required (m)",       ⟨"Hydraulic", 0.0, "abs", "Critical"⟩),
  ("Speed (rpm)",             ⟨"Hydraulic", 0.05, "rel", "Major"⟩),
  ("Impeller Diameter (mm)",  ⟨"Hydraulic", 3.0, "abs", "Major"⟩),
  ("Casing Material",         ⟨"Materials", 0.0, "enum", "Major"⟩),
  ("Impeller Material",       ⟨"Materials", 0.0, "enum", "Major"⟩),
  ("Seal Plan",               ⟨"Sealing", 0.0, "enum", "Critical"⟩),
  ("Design Pressure (bar)",   ⟨"Mechanical", 0.0, "abs", "Critical"⟩),
  ("Design Temperature (°C)", ⟨"Mechanical", 0.0, "abs", "Major"⟩),
  ("Standard - API 610",      ⟨"Standards", 0.0, "enum", "Major"⟩),
  ("Standard - API 682",      ⟨"Standards", 0.0, "enum", "Major"⟩),
  ("Motor Rating (kW)",       ⟨"Electrical", 0.10, "rel", "Major"⟩),
  ("Motor Voltage (V)",       ⟨"Electrical", 0.10, "rel", "Minor"⟩),
  ("Frequency (Hz)",          ⟨"Electrical", 0.0, "abs", "Minor"⟩),
  ("Motor Protection",        ⟨"Electrical", 0.0, "enum", "Major"⟩),
  ("Noise (dBA)",             ⟨"Mechanical", 3.0, "abs", "Minor"⟩),
  ("Vibration (mm/s)",        ⟨"Mechanical", 0.5, "abs", "Minor"⟩),
  ("Suction Nozzle (inch)",   ⟨"Hydraulic", 0.0, "abs", "Minor"⟩),
  ("Discharge Nozzle (inch)", ⟨"Hydraulic", 0.0, "abs", "Minor"⟩)]

/-- `comparer.EQUIV`: per-parameter canonical label with accepted alias
spellings, in the source's insertion order. -/
def EQUIV : List (String × List (String × List String)) := [
  ("Casing Material", [
    ("A216 WCB", ["a216 wcb", "wcb", "carbon steel", "cs", "a216wcb"])]),
  ("Impeller Material", [
    ("CF8M", ["cf8m", "a351 cf8m", "ss316"]),
    ("CA6NM", ["ca6nm", "a743 ca6nm"]),
    ("A890 4A", ["a890 4a", "duplex"]),
    ("A890 5A", ["a890 5a", "super duplex"])]),
  ("Seal Plan", [
    ("53B", ["53b", "plan 53b"]),
    ("53A", ["53a", "plan 53a"]),
    ("23", ["23", "plan 23"]),
    ("52", ["52", "plan 52"])]),
  ("Motor Protection", [
    ("Ex d IIB T4", ["ex d iib t4"]),
    ("Ex d", ["ex d"]),
    ("Ex e", ["ex e"]),
    ("ATEX", ["atex"])]),
  ("Standard - API 610", [
    ("API 610", ["api610", "api 610", "iso 13709"])]),
  ("Standard - API 682", [
    ("API 682", ["api 682"])])]

/-- `EQUIV.get(param, {})`. -/
def equivGroups (param : String) : List (String × List String) :=
  ((EQUIV.find? (fun e => e.1 == param)).map (fun e => e.2)).getD []

/-- `comparer._enum_match`: `None` on either side fails; otherwise compare the
stripped lowercased spellings, then scan the parameter's equivalence groups,
where each side must be an accepted alias or the canonical label itself. -/
def enum_match (param : String) (cust_val eng_val : Option Value) : Bool :=
  match cust_val, eng_val with
  | some cv, some ev =>
    let cust := pyLower (pyStrip (pyStr cv))
    let eng := pyLower (pyStrip (pyStr ev))
    if cust = eng then true
    else
      (equivGroups param).any (fun g =>
        let canonL := pyLower (pyStrip g.1)
        (g.2.contains cust || cust == canonL) && (g.2.contains eng || eng == canonL))
  | _, _ => false

/-- `'Design Pressure' in param or 'Design Temperature' in param`. -/
def isDesignParam (param : String) : Bool :=
  containsSub param "Design Pressure" || containsSub param "Design Temperature"

/-- `comparer._compare_numeric`: coerce both sides with `float` (failure gives
`(None, False)`), then dispatch on the tolerance kind; `abs` rows whose name
contains "Design Pressure"/"Design Temperature" use the meet-or-exceed test. -/
def compare_numeric (param : String) (cust_val eng_val : Value) (tol : ℚ)
    (tol_type : String) : Option ℚ × Bool :=
  match pyFloat? cust_val, pyFloat? eng_val with
  | some c, some e =>
    if tol_type = "rel" then
      (some (e - c), decide (|e - c| ≤ |c| * tol))
    else if tol_type = "abs" then
      if isDesignParam param then (some (e - c), decide (e ≥ c))
      else (some (e - c), decide (|e - c| ≤ tol))
    else (none, false)
  | _, _ => (none, false)

/-- `comparer.risk_and_negotiation` (the two value arguments are accepted and
ignored exactly as in the source). -/
def risk_and_negotiation (param status : String)
    (cust_val eng_val : Option Value) : String × String :=
  if param = "Flow (m³/h)" ∨ param = "Head (m)" then
    if status ≠ "OK" then ("High", "Offer impeller trim/VFD; show curve") else ("Low", "None")
  else if param = "Seal Plan" then
    if status ≠ "OK" then ("High", "Propose API 682 equivalent with justification") else ("Low", "None")
  else if containsSub param "Material" then
    if status ≠ "OK" then ("Medium", "Material equivalency + corrosion data; upgrade option") else ("Low", "None")
  else if startsNPSH param then
    if status ≠ "OK" then ("High", "Revise suction / booster / lower speed") else ("Low", "None")
  else if containsSub param "Design Pressure" then
    if status ≠ "OK" then ("High", "Increase casing rating or justify duty envelope") else ("Low", "None")
  else if param = "Efficiency (%)" then
    if status ≠ "OK" then ("Medium", "LCC analysis or alternate hydraulics") else ("Low", "None")
  else if param = "Motor Protection" then
    if status ≠ "OK" then ("Medium", "Offer compliant Ex/ATEX or cert plan") else ("Low", "None")
  else ("Low", "None")

/-- One row of the comparison matrix, with the source's column names. -/
structure Row where
  Parameter : String
  Category : String
  Criticality : String
  CustomerSpec : Option Value
  EngineeringSpec : Option Value
  Tolerance : String
  Deviation : Option ℚ
  Status : String
  Severity : String
  Risk : String
  Negotiation : String
deriving DecidableEq

/-- The human-readable `Tolerance` column:
`f"{int(tol*100)}%"` for relative rules, else `f"±{tol}"` or `"Exact/Min"`. -/
def tolStr (m : ParamMeta) : String :=
  if m.tol_type = "rel" then toString ⌊m.tol * 100⌋ ++ "%"
  else if m.tol > 0 then "±" ++ ratRepr m.tol else "Exact/Min"

/-- The per-parameter pass of `comparer.compare_specs`: one matrix row from a
`PARAM_META` entry and the two looked-up document values. -/
def mkRow (param : String) (m : ParamMeta) (cust_val eng_val : Option Value) : Row :=
  let sd : String × Option ℚ :=
    match cust_val, eng_val with
    | some cv, some ev =>
      if m.tol_type = "enum" then
        (if enum_match param cust_val eng_val then "OK" else "Issue", none)
      else
        let de := compare_numeric param cv ev m.tol m.tol_type
        (if de.2 then "OK" else "Issue", de.1)
    | _, _ => ("Missing", none)
  let rn := risk_and_negotiation param sd.1 cust_val eng_val
  { Parameter := param
    Category := m.category
    Criticality := m.criticality
    CustomerSpec := cust_val
    EngineeringSpec := eng_val
    Tolerance := tolStr m
    Deviation := sd.2
    Status := sd.1
    Severity := if sd.1 = "OK" then "OK" else m.criticality
    Risk := rn.1
    Negotiation := rn.2 }

/-- `rfq['Parameter'].astype(str).str.strip()`: strip every parameter label. -/
def stripTable (t : List (String × Value)) : List (String × Value) :=
  t.map (fun r => (pyStrip r.1, r.2))

/-- The `parameter ↦ value` dict built in `compare_specs` (first occurrence of
each parameter wins, matching `iloc[0]` over the unique labels). -/
def buildMap (t : List (String × Value)) : String → Option Value :=
  fun k => (t.find? (fun r => r.1 == k)).map (fun r => r.2)

/-- The per-parameter pass over the whole rule table, given the two maps. -/
def compare_rows_m (rmap emap : String → Option Value) : List Row :=
  PARAM_META.map (fun pm => mkRow pm.1 pm.2 (rmap pm.1) (emap pm.1))

/-- The NPSH floats of the paired rule:
`float(rfq_map.get('NPSH Available (m)'))` and
`float(eng_map.get('NPSH Required (m)'))`; any raising `float` aborts the
override (the source's `try/except`). -/
def npsh_m (rmap emap : String → Option Value) : Option (ℚ × ℚ) :=
  match pyFloatOpt (rmap "NPSH Available (m)"), pyFloatOpt (emap "NPSH Required (m)") with
  | some a, some r => some (a, r)
  | _, _ => none

/-- The in-place NPSH row rewrite of `compare_specs`, as a row function. -/
def npshOverride (margin_ok : Bool) (r : Row) : Row :=
  if (r.Parameter = "NPSH Available (m)" ∨ r.Parameter = "NPSH Required (m)")
      ∧ r.Status ≠ "Missing" then
    { r with
      Status := if margin_ok then "OK" else "Issue"
      Severity := if margin_ok then "OK" else "Critical"
      Risk := if margin_ok then "Low" else "High"
      Negotiation := if margin_ok then "None" else "Consider booster/suction mods" }
  else r

/-- `compare_specs` from the two built maps: the per-parameter pass followed by
the NPSH margin override (`margin ≥ 1.0`) when both NPSH floats resolve. -/
def compare_from_maps (rmap emap : String → Option Value) : List Row :=
  let rows := compare_rows_m rmap emap
  match npsh_m rmap emap with
  | some ar => rows.map (npshOverride (decide (ar.1 - ar.2 ≥ 1)))
  | none => rows

/-- `comparer.compare_specs` on two (Parameter, Value) tables. -/
def compare_specs (rfq_df eng_df : List (String × Value)) : List Row :=
  compare_from_maps (buildMap (stripTable rfq_df)) (buildMap (stripTable eng_df))

/-- The matrix before the NPSH override (the `rows` list of the source at
line 159, just before the paired rule runs). -/
def compare_rows (rfq_df eng_df : List (String × Value)) : List Row :=
  compare_rows_m (buildMap (stripTable rfq_df)) (buildMap (stripTable eng_df))

/-- The NPSH floats of `compare_specs` for two tables. -/
def npshFloats? (rfq_df eng_df : List (String × Value)) : Option (ℚ × ℚ) :=
  npsh_m (buildMap (stripTable rfq_df)) (buildMap (stripTable eng_df))

/-- `{'Critical':3,'Major':2,'Minor':1}.get(c, 1)` from
`weighted_compliance_score`. -/
def weightOf (c : String) : ℚ :=
  if c = "Critical" then 3 else if c = "Major" then 2 else if c = "Minor" then 1 else 1

/-- `comparer.weighted_compliance_score`: elementwise weight × OK-indicator,
summed, over the summed weights; an empty (zero) denominator yields 0. -/
def weighted_compliance_score (rows : List Row) : ℚ :=
  let weights := rows.map (fun r => weightOf r.Criticality)
  let achieved := rows.map (fun r => if r.Status = "OK" then (1 : ℚ) else 0)
  let denom := weights.sum
  if denom ≠ 0 then 100 * (List.zipWith (fun a b => a * b) weights achieved).sum / denom
  else 0

/-- `comparer.summarize_by_category` pass count helper: the number of rows of
a list with status OK (also the `ok_count` of `report.build_executive_pdf`). -/
def okCount (rows : List Row) : ℕ :=
  (rows.filter (fun r => r.Status == "OK")).length

/-- Round-half-to-even on rationals, the tie-breaking Python's `round` uses
(modelled exactly on rationals rather than on binary floats). -/
def roundHalfEven (q : ℚ) : ℤ :=
  let f := ⌊q⌋
  if q - f < 1 / 2 then f
  else if q - f > 1 / 2 then f + 1
  else if f % 2 = 0 then f else f + 1

/-- Python `round(x, 1)` as an exact rational operation. -/
def round1 (q : ℚ) : ℚ :=
  ((roundHalfEven (10 * q) : ℤ) : ℚ) / 10

/-- The compliance score of `report.build_executive_pdf`:
`round(100.0 * ok_count / max(total, 1), 1)`. -/
def exec_score (rows : List Row) : ℚ :=
  let total := rows.length
  round1 (100 * (okCount rows : ℚ) / ((max total 1 : ℕ) : ℚ))

/-- `parser.UNIT_ALIASES`, in the source's insertion order. -/
def UNIT_ALIASES : List (String × String) := [
  ("m3/h", "m^3/hour"), ("m3/hr", "m^3/hour"), ("m3ph", "m^3/hour"), ("m3h", "m^3/hour"),
  ("m3 per h", "m^3/hour"), ("m3 per hour", "m^3/hour"), ("m3\\/h", "m^3/hour"),
  ("m³/h", "m^3/hour"), ("m³/hr", "m^3/hour"),
  ("m", "meter"), ("meters", "meter"), ("meter", "meter"),
  ("kw", "kW"), ("kilowatt", "kW"),
  ("bar", "bar"), ("barg", "bar"), ("psi", "psi"),
  ("c", "degC"), ("°c", "degC"), ("degc", "degC"), ("f", "degF"), ("°f", "degF"),
  ("rpm", "rpm"),
  ("in", "inch"), ("inch", "inch"), ("\"", "inch"),
  ("hz", "Hz")]

/-- The unit key `convert_unit` hands to the conversion library:
`(unit_str or "").strip().lower()`, passed through the alias table, with an
empty key falling back to the target unit (Python's `or target_unit`). -/
def effKey (unit_str : Option String) (target_unit : String) : String :=
  let k0 := pyLower (pyStrip (unit_str.getD ""))
  let k1 := ((UNIT_ALIASES.find? (fun e => e.1 == k0)).map (fun e => e.2)).getD k0
  if k1 = "" then target_unit else k1

/-- `parser.convert_unit`. The external `pint` library is passed explicitly:
`none` models `ureg is None` (import failed), and the oracle returning `none`
models `Q_(value, key).to(target_unit)` raising (unrecognized unit, no
conversion path, or dimensional mismatch) — the source's `except` branch. -/
def convert_unit (pint : Option (ℚ → String → String → Option ℚ))
    (value : Option ℚ) (unit_str : Option String) (target_unit : Option String) :
    Option ℚ :=
  match value, target_unit, pint with
  | none, _, _ => none
  | some v, none, _ => some v
  | some v, some _, none => some v
  | some v, some tgt, some conv =>
    match conv v (effKey unit_str tgt) tgt with
    | some v2 => some v2
    | none => some v

/-- `parser.MATERIAL_EQUIV`, in the source's insertion order. -/
def MATERIAL_EQUIV : List (String × String) := [
  ("a216 wcb", "A216 WCB"), ("wcb", "A216 WCB"), ("carbon steel", "A216 WCB"),
  ("cs", "A216 WCB"),
  ("cf8m", "CF8M"), ("a351 cf8m", "CF8M"),
  ("ca6nm", "CA6NM"), ("a743 ca6nm", "CA6NM"),
  ("duplex", "A890 4A"), ("a890 4a", "A890 4A"),
  ("super duplex", "A890 5A"), ("a890 5a", "A890 5A"),
  ("ss316", "CF8M")]

/-- `parser.normalize_material`: `None` passes through; otherwise look up the
stripped lowercased spelling, returning the canonical label on a hit and the
input unchanged otherwise. -/
def normalize_material : Option Value → Option Value
  | none => none
  | some v =>
    match (MATERIAL_EQUIV.find? (fun e => e.1 == pyLower (pyStrip (pyStr v)))).map (fun e => e.2) with
    | some canon => some (Value.str canon)
    | none => some v

/-- A store of document tables, addressed by index: the mutable pandas
DataFrames that `compare_specs` receives and copies. -/
structure PdState where
  tables : List (List (String × Value))
deriving DecidableEq

/-- Allocate a fresh table (what `DataFrame.copy()` returns lives at a new
address). -/
def allocT (s : PdState) (t : List (String × Value)) : PdState × ℕ :=
  (⟨s.tables ++ [t]⟩, s.tables.length)

/-- Read the table at an address. -/
def readT (s : PdState) (i : ℕ) : List (String × Value) :=
  (s.tables.get? i).getD []

/-- Overwrite the table at an address (an in-place pandas column assignment). -/
def writeT (s : PdState) (i : ℕ) (t : List (String × Value)) : PdState :=
  ⟨s.tables.set i t⟩

/-- `df.copy()`: allocate a fresh table holding the same rows. -/
def copyT (s : PdState) (i : ℕ) : PdState × ℕ :=
  allocT s (readT s i)

/-- `comparer.compare_specs` with its mutation made explicit: copy both input
frames, strip the `Parameter` column of the copies in place, build the lookup
maps from the copies, and return the matrix together with the final store. -/
def compare_specs_st (s : PdState) (rfqId engId : ℕ) : PdState × List Row :=
  let c1 := copyT s rfqId
  let c2 := copyT c1.1 engId
  let s3 := writeT c2.1 c1.2 (stripTable (readT c2.1 c1.2))
  let s4 := writeT s3 c2.2 (stripTable (readT s3 c2.2))
  (s4, compare_from_maps (buildMap (readT s4 c1.2)) (buildMap (readT s4 c2.2)))

/-- The weight table exactly as the spec text states it (`Critical = 3`,
`Major = 2`, `Minor = 1`; the spec names no other criticality). -/
def specWeight (c : String) : ℚ :=
  if c = "Critical" then 3 else if c = "Major" then 2 else if c = "Minor" then 1 else 0

/-- The spec's aggregate formula:
`100 × Σ(weight(criticality) × 1[status=OK]) / Σ(weight(criticality))`, with
a zero total weight giving `0.0` by convention. -/
def specWeightedScore (rows : List Row) : ℚ :=
  let W := (rows.map (fun r => specWeight r.Criticality)).sum
  if W = 0 then 0
  else 100 * (rows.map (fun r => specWeight r.Criticality *
    (if r.Status = "OK" then (1 : ℚ) else 0))).sum / W

/-- `PARAM_META` as a lookup (first entry with the given name). -/
def lookupMeta (p : String) : Option ParamMeta :=
  (PARAM_META.find? (fun pm => pm.1 == p)).map (fun pm => pm.2)

/-- The declared tolerance window of a rule, on a computed deviation `d` with
customer value `c`: relative rules allow `|d| ≤ |c|·tol`, the meet-or-exceed
(absolute-minimum) rules allow `d ≥ 0`, and plain absolute rules `|d| ≤ tol`. -/
def windowOK (param : String) (tol : ℚ) (tol_type : String) (c d : ℚ) : Bool :=
  if tol_type = "rel" then decide (|d| ≤ |c| * tol)
  else if isDesignParam param then decide (0 ≤ d)
  else decide (|d| ≤ tol)

/-! ### Helper lemmas -/

theorem listAnyCongr {α : Type} {l : List α} {f g : α → Bool}
    (h : ∀ a ∈ l, f a = g a) : l.any f = l.any g := by
  induction l with
  | nil => rfl
  | cons x t ih =>
    simp only [List.any_cons]
    rw [h x (by simp), ih (fun a ha => h a (by simp [ha]))]

theorem listMapCongr {α β : Type} {l : List α} {f g : α → β}
    (h : ∀ a ∈ l, f a = g a) : l.map f = l.map g := by
  induction l with
  | nil => rfl
  | cons x t ih =>
    simp only [List.map_cons]
    rw [h x (by simp), ih (fun a ha => h a (by simp [ha]))]

theorem zipWithMulMapSum (f g : Row → ℚ) (l : List Row) :
    (List.zipWith (fun a b => a * b) (l.map f) (l.map g)).sum
      = (l.map (fun x => f x * g x)).sum := by
  induction l with
  | nil => rfl
  | cons x t ih => simp [ih]

/-! ### C9: symmetry of enumerated equivalence -/

/-- Claim C9: enumerated-kind equivalence is symmetric — for every parameter
and every pair of raw values, `_enum_match` accepts `(a, b)` exactly when it
accepts `(b, a)`. -/
theorem enum_match_symm (param : String) (a b : Option Value) :
    enum_match param a b = enum_match param b a := by
  cases a with
  | none => cases b <;> rfl
  | some av =>
    cases b with
    | none => rfl
    | some bv =>
      simp only [enum_match]
      by_cases h : pyLower (pyStrip (pyStr av)) = pyLower (pyStrip (pyStr bv))
      · simp [h]
      · have h2 : ¬ pyLower (pyStrip (pyStr bv)) = pyLower (pyStrip (pyStr av)) :=
          fun e => h e.symm
        simp only [if_neg h, if_neg h2]
        exact listAnyCongr (fun g _ => Bool.and_comm _ _)

/-! ### C8: unit conversion fails open -/

/-- Claim C8: `convert_unit` never raises and fails open — if the conversion
library is absent, or the oracle (modelling `pint`) cannot resolve the
computed unit key against the target (unrecognized unit, dimensional
mismatch, or no conversion path), the original value is returned unchanged. -/
theorem convert_unit_fails_open (pint : Option (ℚ → String → String → Option ℚ))
    (value : Option ℚ) (unit_str target_unit : Option String) :
    (pint = none ∨ value = none ∨ target_unit = none →
      convert_unit pint value unit_str target_unit = value) ∧
    (∀ conv v tgt, pint = some conv → value = some v → target_unit = some tgt →
      conv v (effKey unit_str tgt) tgt = none →
      convert_unit pint value unit_str target_unit = value) := by
  constructor
  · rintro (rfl | rfl | rfl)
    · cases value <;> cases target_unit <;> rfl
    · rfl
    · cases value <;> cases pint <;> rfl
  · rintro conv v tgt rfl rfl rfl hc
    simp [convert_unit, hc]

/-- Witness for C8 at concrete inputs: a conversion oracle with no path at
all leaves 5 unchanged, and an absent library leaves 7 unchanged. -/
theorem convert_unit_fails_open_witness :
    convert_unit (some (fun _ _ _ => none)) (some 5) (some "furlong") (some "bar") = some 5 ∧
    convert_unit none (some 7) (some "bar") (some "psi") = some 7 :=
  ⟨(convert_unit_fails_open (some (fun _ _ _ => none)) (some 5) (some "furlong")
      (some "bar")).2 _ 5 "bar" rfl rfl rfl rfl,
   (convert_unit_fails_open none (some 7) (some "bar") (some "psi")).1 (Or.inl rfl)⟩

/-! ### C4: the Casing Material "ASTM A216 WCB" scenario -/

/-- Customer document of the Casing Material scenario. -/
def c4_rfq : List (String × Value) := [("Casing Material", Value.str "A216 WCB")]

/-- Engineering document of the Casing Material scenario. -/
def c4_eng : List (String × Value) := [("Casing Material", Value.str "ASTM A216 WCB")]

/-- Counterexample to claim C4: with customer "A216 WCB" and engineering
"ASTM A216 WCB" the Casing Material row (index 7 of the matrix) has status
"Issue", not "OK": the spelling "astm a216 wcb" is not an accepted alias,
and `normalize_material` leaves it unchanged rather than mapping it to the
canonical "A216 WCB". -/
theorem casing_material_astm_counterexample :
    ((compare_specs c4_rfq c4_eng).get? 7).map Row.Parameter = some "Casing Material" ∧
    ¬ ((compare_specs c4_rfq c4_eng).get? 7).map Row.Status = some "OK" ∧
    enum_match "Casing Material" (some (Value.str "A216 WCB"))
      (some (Value.str "ASTM A216 WCB")) = false ∧
    normalize_material (some (Value.str "ASTM A216 WCB"))
      = some (Value.str "ASTM A216 WCB") := by decide!

/-- Amended claim C4: the pair ("A216 WCB", "ASTM A216 WCB") yields status
"Issue", because only the customer spelling normalizes to the canonical
label; with an accepted alias such as "WCB" on the engineering side the row
is "OK". -/
theorem casing_material_issue_amended :
    ((compare_specs c4_rfq c4_eng).get? 7).map Row.Status = some "Issue" ∧
    ((compare_specs c4_rfq [("Casing Material", Value.str "WCB")]).get? 7).map Row.Status
      = some "OK" ∧
    normalize_material (some (Value.str "A216 WCB")) = some (Value.str "A216 WCB") ∧
    ¬ normalize_material (some (Value.str "ASTM A216 WCB")) = some (Value.str "A216 WCB") := by
  decide!

/-! ### C6: the weighted compliance score formula -/

/-- Claim C6: on every matrix whose rows carry one of the three declared
criticalities, `weighted_compliance_score` equals the spec's formula
`100 × Σ(weight × 1[status=OK]) / Σ(weight)` with Critical=3, Major=2,
Minor=1; and the empty matrix scores 0 instead of dividing by zero. -/
theorem weighted_score_formula :
    (∀ rows : List Row,
      (∀ r ∈ rows, r.Criticality = "Critical" ∨ r.Criticality = "Major" ∨
        r.Criticality = "Minor") →
      weighted_compliance_score rows = specWeightedScore rows) ∧
    weighted_compliance_score [] = 0 := by
  constructor
  · intro rows h
    have hw : ∀ r ∈ rows, weightOf r.Criticality = specWeight r.Criticality := by
      intro r hr
      rcases h r hr with h1 | h1 | h1 <;> simp [weightOf, specWeight, h1]
    simp only [weighted_compliance_score, specWeightedScore]
    rw [zipWithMulMapSum, listMapCongr hw]
    have hmap : rows.map (fun x => weightOf x.Criticality * (if x.Status = "OK" then (1:ℚ) else 0))
        = rows.map (fun x => specWeight x.Criticality * (if x.Status = "OK" then (1:ℚ) else 0)) :=
      listMapCongr (fun r hr => by rw [hw r hr])
    rw [hmap]
    by_cases hW : (rows.map (fun r => specWeight r.Criticality)).sum = 0 <;> simp [hW]
  · rfl

/-- Witness for C6: a two-row matrix (one Critical OK row, one Minor Issue
row) where both sides of the equation evaluate to 75. -/
def c6_rows : List Row :=
  [⟨"Flow (m³/h)", "Hydraulic", "Critical", none, none, "5%", none, "OK", "OK", "Low", "None"⟩,
   ⟨"Noise (dBA)", "Mechanical", "Minor", none, none, "±3.0", none, "Issue", "Minor", "Low", "None"⟩]

/-- Witness for C6 at a concrete matrix with mixed criticalities. -/
theorem weighted_score_formula_witness :
    weighted_compliance_score c6_rows = specWeightedScore c6_rows ∧
    weighted_compliance_score c6_rows = 75 :=
  ⟨weighted_score_formula.1 c6_rows (by decide!), by decide!⟩

/-! ### Row-level lemmas about `mkRow` and the NPSH override -/

theorem mkRow_Parameter (p : String) (m : ParamMeta) (cv ev : Option Value) :
    (mkRow p m cv ev).Parameter = p := rfl

theorem mkRow_CustomerSpec (p : String) (m : ParamMeta) (cv ev : Option Value) :
    (mkRow p m cv ev).CustomerSpec = cv := rfl

theorem mkRow_EngineeringSpec (p : String) (m : ParamMeta) (cv ev : Option Value) :
    (mkRow p m cv ev).EngineeringSpec = ev := rfl

theorem mkRow_status_some_some (p : String) (m : ParamMeta) (a b : Value) :
    (mkRow p m (some a) (some b)).Status = "OK" ∨
    (mkRow p m (some a) (some b)).Status = "Issue" := by
  simp only [mkRow]
  by_cases he : m.tol_type = "enum"
  · by_cases hm : enum_match p (some a) (some b) <;> simp [he, hm]
  · by_cases hc : (compare_numeric p a b m.tol m.tol_type).2 <;> simp [he, hc]

theorem mkRow_status_missing (p : String) (m : ParamMeta) (cv ev : Option Value) :
    (mkRow p m cv ev).Status = "Missing" ↔ (cv = none ∨ ev = none) := by
  cases cv with
  | none => simp [mkRow]
  | some a =>
    cases ev with
    | none => simp [mkRow]
    | some b =>
      simp only [reduceCtorEq, or_self, iff_false]
      rcases mkRow_status_some_some p m a b with h | h <;> rw [h] <;> decide

theorem mkRow_missing_deviation (p : String) (m : ParamMeta) (cv ev : Option Value)
    (h : (mkRow p m cv ev).Status = "Missing") : (mkRow p m cv ev).Deviation = none := by
  cases cv with
  | none => rfl
  | some a =>
    cases ev with
    | none => rfl
    | some b =>
      exact absurd h (by rcases mkRow_status_some_some p m a b with h2 | h2 <;> rw [h2] <;> decide)

theorem npshOverride_Parameter (b : Bool) (r : Row) :
    (npshOverride b r).Parameter = r.Parameter := by
  unfold npshOverride; split <;> rfl

theorem npshOverride_CustomerSpec (b : Bool) (r : Row) :
    (npshOverride b r).CustomerSpec = r.CustomerSpec := by
  unfold npshOverride; split <;> rfl

theorem npshOverride_EngineeringSpec (b : Bool) (r : Row) :
    (npshOverride b r).EngineeringSpec = r.EngineeringSpec := by
  unfold npshOverride; split <;> rfl

theorem npshOverride_Deviation (b : Bool) (r : Row) :
    (npshOverride b r).Deviation = r.Deviation := by
  unfold npshOverride; split <;> rfl

theorem npshOverride_of_not_npsh (b : Bool) (r : Row)
    (h1 : ¬ r.Parameter = "NPSH Available (m)") (h2 : ¬ r.Parameter = "NPSH Required (m)") :
    npshOverride b r = r := by
  unfold npshOverride
  rw [if_neg]
  rintro ⟨h3 | h3, -⟩
  · exact h1 h3
  · exact h2 h3

theorem npshOverride_status_missing (b : Bool) (r : Row) :
    (npshOverride b r).Status = "Missing" ↔ r.Status = "Missing" := by
  unfold npshOverride
  split
  · rename_i h
    cases b <;> simpa using h.2
  · exact Iff.rfl

/-- Every row of `compare_specs` is the (possibly overridden) `mkRow` of a
`PARAM_META` entry applied to the two map lookups. -/
theorem compare_specs_mem (rfq_df eng_df : List (String × Value)) (r : Row)
    (hr : r ∈ compare_specs rfq_df eng_df) :
    ∃ pm ∈ PARAM_META, ∃ b : Bool,
      r = npshOverride b (mkRow pm.1 pm.2 (buildMap (stripTable rfq_df) pm.1)
            (buildMap (stripTable eng_df) pm.1)) ∨
      r = mkRow pm.1 pm.2 (buildMap (stripTable rfq_df) pm.1)
            (buildMap (stripTable eng_df) pm.1) := by
  unfold compare_specs compare_from_maps at hr
  rcases hnp : npsh_m (buildMap (stripTable rfq_df)) (buildMap (stripTable eng_df)) with _ | ar
  · rw [hnp] at hr
    simp only [compare_rows_m, List.mem_map] at hr
    obtain ⟨pm, hpm, hrr⟩ := hr
    exact ⟨pm, hpm, true, Or.inr hrr.symm⟩
  · rw [hnp] at hr
    simp only [compare_rows_m, List.map_map, List.mem_map, Function.comp] at hr
    obtain ⟨pm, hpm, hrr⟩ := hr
    exact ⟨pm, hpm, decide (ar.1 - ar.2 ≥ 1), Or.inl hrr.symm⟩

theorem mkRow_status_numeric (p : String) (m : ParamMeta) (a bv : Value)
    (hne : ¬ m.tol_type = "enum") :
    (mkRow p m (some a) (some bv)).Status
      = (if (compare_numeric p a bv m.tol m.tol_type).2 then "OK" else "Issue") := by
  simp [mkRow, hne]

theorem mkRow_deviation_numeric (p : String) (m : ParamMeta) (a bv : Value)
    (hne : ¬ m.tol_type = "enum") :
    (mkRow p m (some a) (some bv)).Deviation = (compare_numeric p a bv m.tol m.tol_type).1 := by
  simp [mkRow, hne]

theorem mkRow_status_enum (p : String) (m : ParamMeta) (a bv : Value)
    (he : m.tol_type = "enum") :
    (mkRow p m (some a) (some bv)).Status
      = (if enum_match p (some a) (some bv) then "OK" else "Issue") := by
  simp [mkRow, he]

theorem mkRow_deviation_enum (p : String) (m : ParamMeta) (a bv : Value)
    (he : m.tol_type = "enum") :
    (mkRow p m (some a) (some bv)).Deviation = none := by
  simp [mkRow, he]

/-! ### C5: Missing status characterization -/

/-- Claim C5: a matrix row records exactly the two map lookups for its
parameter, its status is "Missing" precisely when at least one side's
canonical value is absent from its document's map, and a Missing row carries
a null deviation. -/
theorem missing_status_iff_absent (rfq_df eng_df : List (String × Value)) :
    ∀ r ∈ compare_specs rfq_df eng_df,
      r.CustomerSpec = buildMap (stripTable rfq_df) r.Parameter ∧
      r.EngineeringSpec = buildMap (stripTable eng_df) r.Parameter ∧
      (r.Status = "Missing" ↔ (buildMap (stripTable rfq_df) r.Parameter = none ∨
        buildMap (stripTable eng_df) r.Parameter = none)) ∧
      (r.Status = "Missing" → r.Deviation = none) := by
  intro r hr
  obtain ⟨pm, _, b, hcase⟩ := compare_specs_mem rfq_df eng_df r hr
  rcases hcase with rfl | rfl
  · refine ⟨?_, ?_, ?_, ?_⟩
    · rw [npshOverride_CustomerSpec, npshOverride_Parameter, mkRow_Parameter, mkRow_CustomerSpec]
    · rw [npshOverride_EngineeringSpec, npshOverride_Parameter, mkRow_Parameter,
        mkRow_EngineeringSpec]
    · rw [npshOverride_status_missing, npshOverride_Parameter, mkRow_Parameter,
        mkRow_status_missing]
    · intro h
      rw [npshOverride_Deviation]
      exact mkRow_missing_deviation _ _ _ _ ((npshOverride_status_missing b _).mp h)
  · refine ⟨?_, ?_, ?_, ?_⟩
    · rw [mkRow_Parameter, mkRow_CustomerSpec]
    · rw [mkRow_Parameter, mkRow_EngineeringSpec]
    · rw [mkRow_Parameter, mkRow_status_missing]
    · exact mkRow_missing_deviation _ _ _ _

/-- The Flow row produced from two empty documents. -/
def flowMissingRow : Row :=
  mkRow "Flow (m³/h)" ⟨"Hydraulic", 0.05, "rel", "Critical"⟩ none none

/-- Witness for C5: in the matrix of two empty documents, the Flow row is
Missing, both lookups are absent, and the deviation is null. -/
theorem missing_status_iff_absent_witness :
    flowMissingRow ∈ compare_specs [] [] ∧
    (flowMissingRow.CustomerSpec = buildMap (stripTable []) flowMissingRow.Parameter ∧
     flowMissingRow.EngineeringSpec = buildMap (stripTable []) flowMissingRow.Parameter ∧
     (flowMissingRow.Status = "Missing" ↔ (buildMap (stripTable []) flowMissingRow.Parameter = none ∨
       buildMap (stripTable []) flowMissingRow.Parameter = none)) ∧
     (flowMissingRow.Status = "Missing" → flowMissingRow.Deviation = none)) :=
  ⟨by decide!, missing_status_iff_absent [] [] flowMissingRow (by decide!)⟩

/-! ### C3: the absolute-minimum (meet-or-exceed) rule -/

theorem pm_absolute_minimum :
    ∀ pm ∈ PARAM_META,
      pm.1 = "Design Pressure (bar)" ∨ pm.1 = "Design Temperature (°C)" →
        pm.2.tol_type = "abs" := by decide!

/-- Claim C3: for each absolute-minimum parameter — Design Pressure (bar) and
Design Temperature (°C) — when both sides parse as numbers, the numeric
comparison ignores the tolerance magnitude and accepts iff `eng ≥ cust`, and
the parameter's matrix row has status "OK" iff `eng ≥ cust` (and "Issue"
when `eng ≥ cust` fails). -/
theorem absolute_minimum_rule (p : String)
    (hp : p = "Design Pressure (bar)" ∨ p = "Design Temperature (°C)")
    (rfq_df eng_df : List (String × Value)) (cv ev : Value) (c e : ℚ)
    (hc : buildMap (stripTable rfq_df) p = some cv)
    (he : buildMap (stripTable eng_df) p = some ev)
    (hfc : pyFloat? cv = some c) (hfe : pyFloat? ev = some e) :
    (∀ tol : ℚ, compare_numeric p cv ev tol "abs"
        = (some (e - c), decide (e ≥ c))) ∧
    (∀ r ∈ compare_specs rfq_df eng_df, r.Parameter = p →
      (r.Status = "OK" ↔ e ≥ c) ∧ (¬ e ≥ c → r.Status = "Issue")) := by
  have hdp : isDesignParam p = true := by rcases hp with rfl | rfl <;> decide
  have hnum : ∀ tol : ℚ, compare_numeric p cv ev tol "abs"
      = (some (e - c), decide (e ≥ c)) := by
    intro tol
    simp only [compare_numeric, hfc, hfe]
    rw [if_neg (by decide : ¬ ("abs" : String) = "rel")]
    simp [hdp]
  refine ⟨hnum, ?_⟩
  intro r hr hparam
  obtain ⟨pm, hpm, b, hcase⟩ := compare_specs_mem rfq_df eng_df r hr
  have hp1 : pm.1 = p := by
    rcases hcase with rfl | rfl <;>
      simp only [npshOverride_Parameter, mkRow_Parameter] at hparam <;> exact hparam
  have habs : pm.2.tol_type = "abs" := pm_absolute_minimum pm hpm (hp1 ▸ hp)
  have hne : ¬ pm.2.tol_type = "enum" := by rw [habs]; decide
  have hS : (mkRow pm.1 pm.2 (buildMap (stripTable rfq_df) pm.1)
      (buildMap (stripTable eng_df) pm.1)).Status
      = (if decide (e ≥ c) then "OK" else "Issue") := by
    rw [hp1, hc, he, mkRow_status_numeric _ _ _ _ hne, habs, hnum]
  have hBoth : ((mkRow pm.1 pm.2 (buildMap (stripTable rfq_df) pm.1)
        (buildMap (stripTable eng_df) pm.1)).Status = "OK" ↔ e ≥ c) ∧
      (¬ e ≥ c → (mkRow pm.1 pm.2 (buildMap (stripTable rfq_df) pm.1)
        (buildMap (stripTable eng_df) pm.1)).Status = "Issue") := by
    rw [hS]
    by_cases hec : e ≥ c <;> simp [hec]
  have hnpsh1 : ¬ p = "NPSH Available (m)" := by rcases hp with rfl | rfl <;> decide
  have hnpsh2 : ¬ p = "NPSH Required (m)" := by rcases hp with rfl | rfl <;> decide
  rcases hcase with rfl | rfl
  · rw [npshOverride_of_not_npsh b _ (by rw [mkRow_Parameter, hp1]; exact hnpsh1)
      (by rw [mkRow_Parameter, hp1]; exact hnpsh2)]
    exact hBoth
  · exact hBoth

/-- Customer document of the Design Pressure witness. -/
def c3_rfq : List (String × Value) := [("Design Pressure (bar)", Value.num 25)]

/-- Engineering document of the Design Pressure witness (meets the rating). -/
def c3_eng : List (String × Value) := [("Design Pressure (bar)", Value.num 25)]

/-- Engineering document of the Design Pressure witness (below the rating). -/
def c3b_eng : List (String × Value) := [("Design Pressure (bar)", Value.num 20)]

/-- Customer document of the Design Temperature witness. -/
def c3t_rfq : List (String × Value) := [("Design Temperature (°C)", Value.num 80)]

/-- Engineering document of the Design Temperature witness. -/
def c3t_eng : List (String × Value) := [("Design Temperature (°C)", Value.num 100)]

/-- Witness for C3 at the claim's scenarios: Design Pressure cust = 25 with
eng = 25 (OK iff 25 ≥ 25) and with eng = 20 (Issue since ¬ 20 ≥ 25), and a
Design Temperature instance cust = 80, eng = 100. -/
theorem absolute_minimum_rule_witness :
    ((∀ tol : ℚ, compare_numeric "Design Pressure (bar)" (Value.num 25) (Value.num 25) tol "abs"
        = (some ((25 : ℚ) - 25), decide ((25 : ℚ) ≥ 25))) ∧
     (∀ r ∈ compare_specs c3_rfq c3_eng, r.Parameter = "Design Pressure (bar)" →
       (r.Status = "OK" ↔ (25 : ℚ) ≥ 25) ∧ (¬ (25 : ℚ) ≥ 25 → r.Status = "Issue"))) ∧
    ((∀ tol : ℚ, compare_numeric "Design Pressure (bar)" (Value.num 25) (Value.num 20) tol "abs"
        = (some ((20 : ℚ) - 25), decide ((20 : ℚ) ≥ 25))) ∧
     (∀ r ∈ compare_specs c3_rfq c3b_eng, r.Parameter = "Design Pressure (bar)" →
       (r.Status = "OK" ↔ (20 : ℚ) ≥ 25) ∧ (¬ (20 : ℚ) ≥ 25 → r.Status = "Issue"))) ∧
    ((∀ tol : ℚ, compare_numeric "Design Temperature (°C)" (Value.num 80) (Value.num 100) tol "abs"
        = (some ((100 : ℚ) - 80), decide ((100 : ℚ) ≥ 80))) ∧
     (∀ r ∈ compare_specs c3t_rfq c3t_eng, r.Parameter = "Design Temperature (°C)" →
       (r.Status = "OK" ↔ (100 : ℚ) ≥ 80) ∧ (¬ (100 : ℚ) ≥ 80 → r.Status = "Issue"))) :=
  ⟨absolute_minimum_rule "Design Pressure (bar)" (Or.inl rfl) c3_rfq c3_eng
      (Value.num 25) (Value.num 25) 25 25 (by decide!) (by decide!) (by decide!) (by decide!),
   absolute_minimum_rule "Design Pressure (bar)" (Or.inl rfl) c3_rfq c3b_eng
      (Value.num 25) (Value.num 20) 25 20 (by decide!) (by decide!) (by decide!) (by decide!),
   absolute_minimum_rule "Design Temperature (°C)" (Or.inr rfl) c3t_rfq c3t_eng
      (Value.num 80) (Value.num 100) 80 100 (by decide!) (by decide!) (by decide!) (by decide!)⟩

/-! ### C1: the NPSH paired rule -/

/-- Claim C1: when the customer document's NPSH Available and the engineering
document's NPSH Required both resolve to numbers, the final matrix is the
per-parameter pass with the margin override mapped over it; the override
leaves Missing NPSH rows unchanged, and rewrites every non-Missing NPSH row
to "OK" when `margin = available - required ≥ 1.0`, and otherwise to "Issue"
with severity "Critical" and risk "High". -/
theorem npsh_paired_rule (rfq_df eng_df : List (String × Value)) (ava req : ℚ)
    (h : npshFloats? rfq_df eng_df = some (ava, req)) :
    compare_specs rfq_df eng_df
      = (compare_rows rfq_df eng_df).map (npshOverride (decide (ava - req ≥ 1))) ∧
    ∀ r ∈ compare_rows rfq_df eng_df,
      (r.Parameter = "NPSH Available (m)" ∨ r.Parameter = "NPSH Required (m)") →
        (r.Status = "Missing" → npshOverride (decide (ava - req ≥ 1)) r = r) ∧
        (¬ r.Status = "Missing" →
          (ava - req ≥ 1 → (npshOverride (decide (ava - req ≥ 1)) r).Status = "OK") ∧
          (ava - req < 1 →
            (npshOverride (decide (ava - req ≥ 1)) r).Status = "Issue" ∧
            (npshOverride (decide (ava - req ≥ 1)) r).Severity = "Critical" ∧
            (npshOverride (decide (ava - req ≥ 1)) r).Risk = "High")) := by
  have h2 : npsh_m (buildMap (stripTable rfq_df)) (buildMap (stripTable eng_df))
      = some (ava, req) := h
  constructor
  · simp only [compare_specs, compare_from_maps, compare_rows, h2]
  · intro r _ hp
    constructor
    · intro hmiss
      unfold npshOverride
      rw [if_neg]
      rintro ⟨-, hne⟩
      exact hne hmiss
    · intro hnm
      have hcond : (r.Parameter = "NPSH Available (m)" ∨ r.Parameter = "NPSH Required (m)")
          ∧ ¬ r.Status = "Missing" := ⟨hp, hnm⟩
      constructor
      · intro hm
        unfold npshOverride
        rw [if_pos hcond, decide_eq_true hm]
        rfl
      · intro hlt
        have hdm : decide (ava - req ≥ 1) = false := decide_eq_false (by linarith)
        unfold npshOverride
        rw [if_pos hcond, hdm]
        exact ⟨rfl, rfl, rfl⟩

/-- Customer document of the NPSH witness. -/
def c1_rfq : List (String × Value) := [("NPSH Available (m)", Value.num 5)]

/-- Engineering document of the NPSH witness. -/
def c1_eng : List (String × Value) := [("NPSH Required (m)", Value.num 3)]

/-- Witness for C1 with NPSH Available = 5 and NPSH Required = 3. -/
theorem npsh_paired_rule_witness :
    npshFloats? c1_rfq c1_eng = some (5, 3) ∧
    (compare_specs c1_rfq c1_eng
        = (compare_rows c1_rfq c1_eng).map (npshOverride (decide ((5 : ℚ) - 3 ≥ 1))) ∧
     ∀ r ∈ compare_rows c1_rfq c1_eng,
      (r.Parameter = "NPSH Available (m)" ∨ r.Parameter = "NPSH Required (m)") →
        (r.Status = "Missing" → npshOverride (decide ((5 : ℚ) - 3 ≥ 1)) r = r) ∧
        (¬ r.Status = "Missing" →
          ((5 : ℚ) - 3 ≥ 1 → (npshOverride (decide ((5 : ℚ) - 3 ≥ 1)) r).Status = "OK") ∧
          ((5 : ℚ) - 3 < 1 →
            (npshOverride (decide ((5 : ℚ) - 3 ≥ 1)) r).Status = "Issue" ∧
            (npshOverride (decide ((5 : ℚ) - 3 ≥ 1)) r).Severity = "Critical" ∧
            (npshOverride (decide ((5 : ℚ) - 3 ≥ 1)) r).Risk = "High"))) :=
  ⟨by decide!, npsh_paired_rule c1_rfq c1_eng 5 3 (by decide!)⟩

/-! ### C2: status OK versus the declared tolerance window -/

theorem compare_numeric_ok_window (p : String) (a b : Value) (tol : ℚ) (tt : String)
    (h2 : (compare_numeric p a b tol tt).2 = true) :
    ∃ c e, pyFloat? a = some c ∧ pyFloat? b = some e ∧
      (compare_numeric p a b tol tt).1 = some (e - c) ∧
      windowOK p tol tt c (e - c) = true := by
  obtain ⟨c, hfa⟩ : ∃ c, pyFloat? a = some c := by
    cases h : pyFloat? a
    · exfalso; unfold compare_numeric at h2; rw [h] at h2; simp at h2
    · exact ⟨_, rfl⟩
  obtain ⟨e, hfb⟩ : ∃ e, pyFloat? b = some e := by
    cases h : pyFloat? b
    · exfalso; unfold compare_numeric at h2; rw [hfa, h] at h2; simp at h2
    · exact ⟨_, rfl⟩
  have hcn : compare_numeric p a b tol tt
      = (if tt = "rel" then (some (e - c), decide (|e - c| ≤ |c| * tol))
         else if tt = "abs" then
           (if isDesignParam p then (some (e - c), decide (e ≥ c))
            else (some (e - c), decide (|e - c| ≤ tol)))
         else (none, false)) := by
    unfold compare_numeric
    rw [hfa, hfb]
  rw [hcn] at h2
  refine ⟨c, e, hfa, hfb, ?_, ?_⟩
  · rw [hcn]
    by_cases hrel : tt = "rel"
    · rw [if_pos hrel]
    · by_cases habs : tt = "abs"
      · rw [if_neg hrel, if_pos habs]
        by_cases hd : isDesignParam p
        · rw [if_pos hd]
        · rw [if_neg hd]
      · rw [if_neg hrel, if_neg habs] at h2; simp at h2
  · by_cases hrel : tt = "rel"
    · rw [if_pos hrel] at h2
      rw [windowOK, if_pos hrel]
      exact h2
    · by_cases habs : tt = "abs"
      · rw [if_neg hrel, if_pos habs] at h2
        by_cases hd : isDesignParam p
        · rw [if_pos hd] at h2
          rw [windowOK, if_neg hrel, if_pos hd]
          simp only [decide_eq_true_eq, ge_iff_le] at h2 ⊢
          linarith
        · rw [if_neg hd] at h2
          rw [windowOK, if_neg hrel, if_neg hd]
          exact h2
      · rw [if_neg hrel, if_neg habs] at h2; simp at h2

theorem mkRow_ok_window (p : String) (m : ParamMeta) (cv ev : Option Value)
    (hok : (mkRow p m cv ev).Status = "OK") :
    (mkRow p m cv ev).Deviation = none ∨
    ∃ c d, pyFloatOpt cv = some c ∧ (mkRow p m cv ev).Deviation = some d ∧
      windowOK p m.tol m.tol_type c d = true := by
  cases cv with
  | none =>
    rw [(mkRow_status_missing p m none ev).mpr (Or.inl rfl)] at hok
    exact absurd hok (by decide)
  | some a =>
    cases ev with
    | none =>
      rw [(mkRow_status_missing p m (some a) none).mpr (Or.inr rfl)] at hok
      exact absurd hok (by decide)
    | some b =>
      by_cases he : m.tol_type = "enum"
      · exact Or.inl (mkRow_deviation_enum p m a b he)
      · right
        rw [mkRow_status_numeric p m a b he] at hok
        have h2 : (compare_numeric p a b m.tol m.tol_type).2 = true := by
          by_cases hc2 : (compare_numeric p a b m.tol m.tol_type).2
          · exact hc2
          · rw [if_neg hc2] at hok; exact absurd hok (by decide)
        obtain ⟨c, e, hfa, hfb, hdev, hwin⟩ :=
          compare_numeric_ok_window p a b m.tol m.tol_type h2
        exact ⟨c, e - c, hfa,
          by rw [mkRow_deviation_numeric p m a b he]; exact hdev, hwin⟩

/-- Amended claim C2: in every matrix, a row with status "OK" has a null
deviation (enumerated kind) or a deviation within the declared tolerance
window of its rule — except that either NPSH row may violate its own window
when the paired override fired with margin ≥ 1.0. -/
theorem status_ok_tolerance_invariant (rfq_df eng_df : List (String × Value)) :
    ∀ r ∈ compare_specs rfq_df eng_df, r.Status = "OK" →
      r.Deviation = none ∨
      (∃ m c d, lookupMeta r.Parameter = some m ∧
        pyFloatOpt r.CustomerSpec = some c ∧ r.Deviation = some d ∧
        windowOK r.Parameter m.tol m.tol_type c d = true) ∨
      ((r.Parameter = "NPSH Available (m)" ∨ r.Parameter = "NPSH Required (m)") ∧
        ∃ a q, npshFloats? rfq_df eng_df = some (a, q) ∧ a - q ≥ 1) := by
  intro r hr hok
  have hfind : ∀ pm ∈ PARAM_META, lookupMeta pm.1 = some pm.2 := by decide!
  unfold compare_specs compare_from_maps at hr
  rcases hnp : npsh_m (buildMap (stripTable rfq_df)) (buildMap (stripTable eng_df)) with _ | ar
  · rw [hnp] at hr
    simp only [compare_rows_m, List.mem_map] at hr
    obtain ⟨pm, hpm, hrr⟩ := hr
    subst hrr
    rcases mkRow_ok_window pm.1 pm.2 _ _ hok with h | ⟨c, d, h1, h2, h3⟩
    · exact Or.inl h
    · exact Or.inr (Or.inl ⟨pm.2, c, d, hfind pm hpm, h1, h2, h3⟩)
  · rw [hnp] at hr
    simp only [compare_rows_m, List.map_map, List.mem_map, Function.comp] at hr
    obtain ⟨pm, hpm, hrr⟩ := hr
    subst hrr
    by_cases hcond : ((mkRow pm.1 pm.2 (buildMap (stripTable rfq_df) pm.1)
        (buildMap (stripTable eng_df) pm.1)).Parameter = "NPSH Available (m)" ∨
        (mkRow pm.1 pm.2 (buildMap (stripTable rfq_df) pm.1)
          (buildMap (stripTable eng_df) pm.1)).Parameter = "NPSH Required (m)") ∧
        ¬ (mkRow pm.1 pm.2 (buildMap (stripTable rfq_df) pm.1)
          (buildMap (stripTable eng_df) pm.1)).Status = "Missing"
    · have hb : decide (ar.1 - ar.2 ≥ 1) = true := by
        cases hd : decide (ar.1 - ar.2 ≥ 1) with
        | true => rfl
        | false =>
          unfold npshOverride at hok
          rw [if_pos hcond, hd] at hok
          replace hok : ("Issue" : String) = "OK" := hok
          exact absurd hok (by decide)
      refine Or.inr (Or.inr ⟨?_, ar.1, ar.2, hnp, of_decide_eq_true hb⟩)
      rw [npshOverride_Parameter]
      exact hcond.1
    · have heq : npshOverride (decide (ar.1 - ar.2 ≥ 1))
          (mkRow pm.1 pm.2 (buildMap (stripTable rfq_df) pm.1)
            (buildMap (stripTable eng_df) pm.1))
          = mkRow pm.1 pm.2 (buildMap (stripTable rfq_df) pm.1)
            (buildMap (stripTable eng_df) pm.1) := by
        unfold npshOverride; rw [if_neg hcond]
      rw [heq] at hok ⊢
      rcases mkRow_ok_window pm.1 pm.2 _ _ hok with h | ⟨c, d, h1, h2, h3⟩
      · exact Or.inl h
      · exact Or.inr (Or.inl ⟨pm.2, c, d, hfind pm hpm, h1, h2, h3⟩)

/-- Customer document of the C2 counterexample. -/
def c2_rfq : List (String × Value) := [("NPSH Available (m)", Value.num 5)]

/-- Engineering document of the C2 counterexample. -/
def c2_eng : List (String × Value) :=
  [("NPSH Available (m)", Value.num 4), ("NPSH Required (m)", Value.num 3)]

/-- Counterexample to claim C2 as stated: with customer NPSH Available = 5
and engineering NPSH Available = 4, NPSH Required = 3, the margin override
(margin 2 ≥ 1) forces the NPSH Available row to "OK" although its deviation
-1 lies outside the row's declared ±0 absolute window. -/
theorem npsh_override_breaks_tolerance_invariant :
    ((compare_specs c2_rfq c2_eng).get? 3).map Row.Parameter = some "NPSH Available (m)" ∧
    ((compare_specs c2_rfq c2_eng).get? 3).map Row.Status = some "OK" ∧
    ((compare_specs c2_rfq c2_eng).get? 3).map Row.Deviation = some (some (-1)) ∧
    lookupMeta "NPSH Available (m)" = some ⟨"Hydraulic", 0, "abs", "Critical"⟩ ∧
    windowOK "NPSH Available (m)" 0 "abs" 5 (-1) = false := by decide!

/-- A document carrying only a Flow value of 100. -/
def flowTable : List (String × Value) := [("Flow (m³/h)", Value.num 100)]

/-- The Flow row of `compare_specs flowTable flowTable`. -/
def flowOkRow : Row :=
  mkRow "Flow (m³/h)" ⟨"Hydraulic", 0.05, "rel", "Critical"⟩
    (some (Value.num 100)) (some (Value.num 100))

/-- Witness for the amended C2 at the OK Flow row of a concrete matrix. -/
theorem status_ok_tolerance_invariant_witness :
    flowOkRow ∈ compare_specs flowTable flowTable ∧ flowOkRow.Status = "OK" ∧
    (flowOkRow.Deviation = none ∨
      (∃ m c d, lookupMeta flowOkRow.Parameter = some m ∧
        pyFloatOpt flowOkRow.CustomerSpec = some c ∧ flowOkRow.Deviation = some d ∧
        windowOK flowOkRow.Parameter m.tol m.tol_type c d = true) ∨
      ((flowOkRow.Parameter = "NPSH Available (m)" ∨
          flowOkRow.Parameter = "NPSH Required (m)") ∧
        ∃ a q, npshFloats? flowTable flowTable = some (a, q) ∧ a - q ≥ 1)) :=
  ⟨by decide!, by decide!,
    status_ok_tolerance_invariant flowTable flowTable flowOkRow (by decide!) (by decide!)⟩

/-! ### C7: the executive-summary score versus the weighted score -/

theorem roundHalfEven_intCast (m : ℤ) : roundHalfEven (m : ℚ) = m := by
  simp only [roundHalfEven, Int.floor_intCast]
  have h0 : ((m : ℚ) - m) = 0 := sub_self _
  rw [h0]
  norm_num

theorem round1_of_den_one (q : ℚ) (m : ℤ) (h : 10 * q = (m : ℚ)) : round1 q = q := by
  unfold round1
  rw [h, roundHalfEven_intCast]
  rw [eq_comm, eq_div_iff (by norm_num : (10 : ℚ) ≠ 0)]
  linarith

theorem sum_indicator_eq_okCount (rows : List Row) :
    (rows.map (fun r => if r.Status = "OK" then (1 : ℚ) else 0)).sum
      = (okCount rows : ℚ) := by
  induction rows with
  | nil => simp [okCount]
  | cons r t ih =>
    by_cases h : r.Status = "OK" <;>
      simp [okCount, List.filter_cons, h, ih] <;>
      simp only [okCount] at ih <;> push_cast <;> linarith [ih]

theorem sum_map_const_q {α : Type} (l : List α) (c : ℚ) :
    (l.map (fun _ => c)).sum = (l.length : ℚ) * c := by
  induction l with
  | nil => simp
  | cons x t ih => simp only [List.map_cons, List.sum_cons, List.length_cons, ih]; push_cast; ring

theorem sum_map_mul_left_q {α : Type} (l : List α) (c : ℚ) (g : α → ℚ) :
    (l.map (fun x => c * g x)).sum = c * (l.map g).sum := by
  induction l with
  | nil => simp
  | cons x t ih => simp only [List.map_cons, List.sum_cons, ih]; ring

theorem weightOf_pos (k : String) : 0 < weightOf k := by
  unfold weightOf; split_ifs <;> norm_num

/-- Counterexample to claim C7 as stated: on the matrix of two documents that
agree on Flow (the only shared parameter), the executive-summary score is the
unweighted 4.5 while the Aggregator's criticality-weighted score is 75/11. -/
theorem exec_score_counterexample :
    exec_score (compare_specs flowTable flowTable) = 9 / 2 ∧
    weighted_compliance_score (compare_specs flowTable flowTable) = 75 / 11 ∧
    ¬ (9 / 2 : ℚ) = 75 / 11 := by decide!

/-- Amended claim C7: the executive-summary score is the unweighted share of
OK rows, `round(100·ok/max(total,1), 1)`; it agrees with the Aggregator's
criticality-weighted score only in special cases, e.g. whenever all rows
carry the same criticality and the percentage needs no rounding. -/
theorem exec_score_unweighted_agreement (rows : List Row) (k : String)
    (hk : ∀ r ∈ rows, r.Criticality = k)
    (hdvd : (max rows.length 1) ∣ 1000 * okCount rows) :
    exec_score rows = weighted_compliance_score rows := by
  by_cases hn : rows = []
  · subst hn; decide!
  · have hlen : 0 < rows.length := List.length_pos.2 hn
    have hmax : max rows.length 1 = rows.length := Nat.max_eq_left hlen
    obtain ⟨t, ht⟩ := hdvd
    rw [hmax] at ht
    have hnq : ((rows.length : ℕ) : ℚ) ≠ 0 := by
      exact_mod_cast hlen.ne'
    have hq : (1000 : ℚ) * (okCount rows : ℚ) = (rows.length : ℚ) * (t : ℚ) := by
      exact_mod_cast congrArg (fun n : ℕ => (n : ℚ)) ht
    have hexec : exec_score rows
        = 100 * (okCount rows : ℚ) / ((rows.length : ℕ) : ℚ) := by
      simp only [exec_score]
      rw [hmax]
      apply round1_of_den_one _ (t : ℤ)
      push_cast
      field_simp
      linarith
    have hweights : (rows.map (fun r => weightOf r.Criticality)).sum
        = (rows.length : ℚ) * weightOf k := by
      have hcong : rows.map (fun r => weightOf r.Criticality)
          = rows.map (fun _ => weightOf k) :=
        listMapCongr (fun r hr => by rw [hk r hr])
      rw [hcong, sum_map_const_q]
    have hzip : (List.zipWith (fun a b => a * b)
        (rows.map (fun r => weightOf r.Criticality))
        (rows.map (fun r => if r.Status = "OK" then (1 : ℚ) else 0))).sum
        = weightOf k * (okCount rows : ℚ) := by
      have hcong : rows.map (fun x => weightOf x.Criticality *
            (if x.Status = "OK" then (1 : ℚ) else 0))
          = rows.map (fun x => weightOf k * (if x.Status = "OK" then (1 : ℚ) else 0)) :=
        listMapCongr (fun r hr => by rw [hk r hr])
      rw [zipWithMulMapSum, hcong, sum_map_mul_left_q, sum_indicator_eq_okCount]
    have hden : ¬ ((rows.length : ℚ) * weightOf k) = 0 :=
      mul_ne_zero hnq (weightOf_pos k).ne'
    simp only [weighted_compliance_score]
    rw [hweights, hzip, if_pos hden, hexec]
    have hw : (weightOf k) ≠ 0 := (weightOf_pos k).ne'
    field_simp
    ring

/-- A four-row matrix with uniform Minor criticality, three rows OK. -/
def c7w_rows : List Row :=
  [⟨"A", "Cat", "Minor", none, none, "t", none, "OK", "OK", "Low", "None"⟩,
   ⟨"B", "Cat", "Minor", none, none, "t", none, "OK", "OK", "Low", "None"⟩,
   ⟨"C", "Cat", "Minor", none, none, "t", none, "OK", "OK", "Low", "None"⟩,
   ⟨"D", "Cat", "Minor", none, none, "t", none, "Issue", "Minor", "High", "None"⟩]

/-- Witness for the amended C7: on a uniform-criticality matrix with an exact
percentage (75%), the two scores agree. -/
theorem exec_score_unweighted_agreement_witness :
    (∀ r ∈ c7w_rows, r.Criticality = "Minor") ∧
    (max c7w_rows.length 1) ∣ 1000 * okCount c7w_rows ∧
    exec_score c7w_rows = weighted_compliance_score c7w_rows :=
  ⟨by decide!, by decide!,
    exec_score_unweighted_agreement c7w_rows "Minor" (by decide!) (by decide!)⟩

/-! ### C10: `compare_specs` does not mutate its inputs -/

theorem store_get_preserved (L : List (List (String × Value)))
    (t1 t2 x y : List (String × Value)) (i : ℕ) (hi : i < L.length) :
    ((((L ++ [t1]) ++ [t2]).set L.length x).set (L.length + 1) y).get? i = L.get? i := by
  rw [List.get?_set_ne _ _ (by omega), List.get?_set_ne _ _ (by omega),
    List.get?_append (by simp; omega), List.get?_append hi]

theorem store_get_copy1 (L : List (List (String × Value)))
    (t1 t2 x y : List (String × Value)) :
    ((((L ++ [t1]) ++ [t2]).set L.length x).set (L.length + 1) y).get? L.length = some x := by
  rw [List.get?_set_ne _ _ (by omega), List.get?_set_eq_of_lt _ (by simp)]

theorem store_get_copy2 (L : List (List (String × Value)))
    (t1 t2 x y : List (String × Value)) :
    ((((L ++ [t1]) ++ [t2]).set L.length x).set (L.length + 1) y).get? (L.length + 1)
      = some y := List.get?_set_eq_of_lt _ (by simp)

theorem store_get_mid (L : List (List (String × Value)))
    (t1 t2 x : List (String × Value)) :
    (((L ++ [t1]) ++ [t2]).set L.length x).get? (L.length + 1) = some t2 := by
  rw [List.get?_set_ne _ _ (by omega)]
  have h : (L ++ [t1]).length = L.length + 1 := by simp
  rw [← h, List.get?_concat_length]

theorem store_get_fresh1 (L : List (List (String × Value)))
    (t1 t2 : List (String × Value)) :
    ((L ++ [t1]) ++ [t2]).get? L.length = some t1 := by
  rw [List.get?_append (by simp), List.get?_concat_length]

/-- Claim C10: `compare_specs` does not mutate its two input tables — in the
explicit-state model, where `df.copy()` allocates a fresh table and the
`Parameter`-stripping column assignment writes in place, the input addresses
still hold their original tables after the run, and the returned matrix is
the pure `compare_specs` of the original tables. -/
theorem compare_specs_preserves_inputs (s : PdState) (rfqId engId : ℕ)
    (h1 : rfqId < s.tables.length) (h2 : engId < s.tables.length) :
    ((compare_specs_st s rfqId engId).1.tables.get? rfqId = s.tables.get? rfqId ∧
     (compare_specs_st s rfqId engId).1.tables.get? engId = s.tables.get? engId) ∧
    (compare_specs_st s rfqId engId).2
      = compare_specs (readT s rfqId) (readT s engId) := by
  obtain ⟨L⟩ := s
  simp only [compare_specs_st, copyT, allocT, readT, writeT, List.length_append,
    List.length_cons, List.length_nil, Nat.zero_add] at h1 h2 ⊢
  refine ⟨⟨?_, ?_⟩, ?_⟩
  · exact store_get_preserved L _ _ _ _ rfqId h1
  · exact store_get_preserved L _ _ _ _ engId h2
  · rw [store_get_copy1, store_get_copy2, store_get_mid, store_get_fresh1,
      List.get?_append h2]
    rfl

/-- A store holding two one-row documents. -/
def c10_store : PdState := ⟨[[("A", Value.num 1)], [("B", Value.num 2)]]⟩

/-- Witness for C10 on a concrete two-table store. -/
theorem compare_specs_preserves_inputs_witness :
    (0 < c10_store.tables.length ∧ 1 < c10_store.tables.length) ∧
    (((compare_specs_st c10_store 0 1).1.tables.get? 0 = c10_store.tables.get? 0 ∧
      (compare_specs_st c10_store 0 1).1.tables.get? 1 = c10_store.tables.get? 1) ∧
     (compare_specs_st c10_store 0 1).2
        = compare_specs (readT c10_store 0) (readT c10_store 1)) :=
  ⟨⟨by decide, by decide⟩,
    compare_specs_preserves_inputs c10_store 0 1 (by decide) (by decide)⟩
